import Mathlib

/-!
# Verification of `eubnara.github_enterprise.release` (src/plugins/modules/release.py)

A shallow embedding of the Ansible module `release.py`, which resolves a
release on a GitHub Enterprise server and downloads its assets.  The HTTP
transport is modelled as an oracle `http : Request → HttpResult`; the run
produces an `Outcome` (terminal `exit_json`/`fail_json` record, or an
uncaught Python exception), a trace of file writes and a trace of the HTTP
requests issued, in order.
-/

/-- Validated module parameters, as bound by the Ansible argument spec
(`module_args` in `run_module`): `url`, `owner`, `repo`, `token` required;
`tag`, `output_path`, `asset_names` optional (`None` when absent). -/
structure Params where
  url : String
  owner : String
  repo : String
  token : String
  tag : Option String
  output_path : Option String
  asset_names : Option (List String)
deriving DecidableEq, Repr

/-- One asset of a release, as read from the JSON body:
`asset["id"]` and `asset["name"]`. -/
structure Asset where
  id : Nat
  name : String
deriving DecidableEq, Repr

/-- The parsed release metadata body; the code reads `json_data["assets"]`. -/
structure ReleaseJson where
  assets : List Asset
deriving DecidableEq, Repr

/-- An HTTP request as issued by `requests.get(url, headers=..., stream=...)`. -/
structure Request where
  url : String
  accept : String
  authorization : String
  stream : Bool
deriving DecidableEq, Repr

/-- A `requests` response object: `r.status_code`, `r.json()` (`none` models a
body that fails to parse as JSON or lacks the `assets` key, which raises), and
the byte chunks obtained by iterating `r`. -/
structure Response where
  status_code : Nat
  json : Option ReleaseJson
  chunks : List (List Nat)
deriving DecidableEq, Repr

/-- Result of one `requests.get` call: either
`requests.exceptions.ConnectionError` or a response. -/
inductive HttpResult where
  | connError : HttpResult
  | ok (r : Response) : HttpResult
deriving DecidableEq, Repr

/-- A Python exception that escapes `run_module` unhandled. -/
inductive PyError where
  | connectionError (url : String) : PyError
  | jsonError : PyError
deriving DecidableEq, Repr

/-- Terminal outcome of the module: `module.exit_json(**result)`,
`module.fail_json(**result)` (each carrying `changed` and `msg`), or an
uncaught exception. -/
inductive Outcome where
  | exit_json (changed : Bool) (msg : String) : Outcome
  | fail_json (changed : Bool) (msg : String) : Outcome
  | uncaught (e : PyError) : Outcome
deriving DecidableEq, Repr

/-- One file write: `open(os.path.join(parent_dir, asset_name), "wb")`
followed by writing every chunk; `content` is the concatenation of the
chunks in order. -/
structure FileWrite where
  dir : String
  name : String
  content : List Nat
deriving DecidableEq, Repr

/-- The observable result of a run: the terminal outcome, the file writes
performed (in order), and the HTTP requests issued (in order). -/
structure RunResult where
  outcome : Outcome
  writes : List FileWrite
  requests : List Request
deriving DecidableEq, Repr

/-- Source: `github_endpoint_url = f"{module.params['url']}/api/v3/repos/{owner}/{repo}"`. -/
def github_endpoint_url (p : Params) : String :=
  p.url ++ "/api/v3/repos/" ++ p.owner ++ "/" ++ p.repo

/-- The release-metadata URL: `.../releases/latest` when `tag is None`, else
`.../releases/tags/{tag}`. -/
def release_url (p : Params) : String :=
  match p.tag with
  | none => github_endpoint_url p ++ "/releases/latest"
  | some tag => github_endpoint_url p ++ "/releases/tags/" ++ tag

/-- The per-asset download URL: `f"{github_endpoint_url}/releases/assets/{asset_id}"`. -/
def asset_url (p : Params) (asset_id : Nat) : String :=
  github_endpoint_url p ++ "/releases/assets/" ++ toString asset_id

/-- The release-metadata request: `Accept: application/vnd.github+json`,
`Authorization: token {token}`. -/
def metadataRequest (p : Params) : Request :=
  { url := release_url p
    accept := "application/vnd.github+json"
    authorization := "token " ++ p.token
    stream := false }

/-- A per-asset download request: `Accept: application/octet-stream`,
`Authorization: token {token}`, `stream=True`. -/
def assetRequest (p : Params) (asset_id : Nat) : Request :=
  { url := asset_url p asset_id
    accept := "application/octet-stream"
    authorization := "token " ++ p.token
    stream := true }

/-- Source: `parent_dir = os.getcwd() if output_path is None else output_path`. -/
def parent_dir (cwd : String) (p : Params) : String :=
  match p.output_path with
  | none => cwd
  | some op => op

/-- Python `dict.update({k: v})` on an insertion-ordered association list:
if `k` is already a key its value is replaced in place, otherwise `(k, v)`
is appended. -/
def dictUpdate (d : List (Nat × String)) (k : Nat) (v : String) : List (Nat × String) :=
  if d.any (fun kv => kv.1 == k) then
    d.map (fun kv => if kv.1 == k then (k, v) else kv)
  else
    d ++ [(k, v)]

/-- The loop body guard: `if asset_names is not None and name not in asset_names: continue`. -/
def skipAsset (asset_names : Option (List String)) (name : String) : Bool :=
  match asset_names with
  | none => false
  | some l => !(l.contains name)

/-- The selection loop over `assets`, accumulating the `assets_to_download`
dict (insertion-ordered, keyed by `asset["id"]`). -/
def selectLoop (asset_names : Option (List String)) :
    List Asset → List (Nat × String) → List (Nat × String)
  | [], d => d
  | a :: rest, d =>
    if skipAsset asset_names a.name then
      selectLoop asset_names rest d
    else
      selectLoop asset_names rest (dictUpdate d a.id a.name)

/-- The `assets_to_download` dict as built by the `for asset in assets` loop. -/
def assets_to_download (asset_names : Option (List String)) (assets : List Asset) :
    List (Nat × String) :=
  selectLoop asset_names assets []

/-- The download loop `for asset_id, asset_name in assets_to_download.items()`:
each iteration issues the asset request; a `ConnectionError` is NOT caught
here and escapes; a status other than 200 fails with
`"Failed to download {asset_name}"`; otherwise the chunks are written to
`{parent_dir}/{asset_name}`.  After the loop, `exit_json` with
`"Completed to download assets on {parent_dir}"`. -/
def downloadLoop (http : Request → HttpResult) (cwd : String) (p : Params) :
    List (Nat × String) → List FileWrite → List Request → RunResult
  | [], writes, reqs =>
    ⟨.exit_json false ("Completed to download assets on " ++ parent_dir cwd p), writes, reqs⟩
  | x :: rest, writes, reqs =>
    match http (assetRequest p x.1) with
    | .connError =>
      ⟨.uncaught (.connectionError (asset_url p x.1)), writes,
        reqs ++ [assetRequest p x.1]⟩
    | .ok r =>
      if r.status_code ≠ 200 then
        ⟨.fail_json false ("Failed to download " ++ x.2), writes,
          reqs ++ [assetRequest p x.1]⟩
      else
        downloadLoop http cwd p rest
          (writes ++ [⟨parent_dir cwd p, x.2, r.chunks.flatten⟩])
          (reqs ++ [assetRequest p x.1])

/-- The part of `run_module` after the metadata response arrived with a status
other than 401 and 404: `json_data = r.json()` (raises on failure), the
selection loop, the empty-selection gate, then the download loop. -/
def afterMetadata (http : Request → HttpResult) (cwd : String) (p : Params)
    (r : Response) : RunResult :=
  match r.json with
  | none => ⟨.uncaught .jsonError, [], [metadataRequest p]⟩
  | some json_data =>
    if (assets_to_download p.asset_names json_data.assets).length = 0 then
      ⟨.fail_json false "There is no asset to download", [], [metadataRequest p]⟩
    else
      downloadLoop http cwd p (assets_to_download p.asset_names json_data.assets) []
        [metadataRequest p]

/-- The body of `run_module` (after argument binding, not in check mode): issue the
metadata request (a `ConnectionError` is caught and mapped to
`"Failed to connect {url}"`), map 401 and 404 to their fixed messages, and
otherwise continue with `afterMetadata`. -/
def run_module (http : Request → HttpResult) (cwd : String) (p : Params) : RunResult :=
  match http (metadataRequest p) with
  | .connError =>
    ⟨.fail_json false ("Failed to connect " ++ release_url p), [], [metadataRequest p]⟩
  | .ok r =>
    if r.status_code = 401 then
      ⟨.fail_json false "401 Unauthorized", [], [metadataRequest p]⟩
    else if r.status_code = 404 then
      ⟨.fail_json false "404 Not Found", [], [metadataRequest p]⟩
    else
      afterMetadata http cwd p r

/-- Holds (as `true`) iff the transport returned a response with status 200. -/
def ok200 : HttpResult → Bool
  | .connError => false
  | .ok r => r.status_code == 200

/-- The bytes a successful download writes: the concatenation of the
response's chunks. -/
def bodyChunks : HttpResult → List Nat
  | .connError => []
  | .ok r => r.chunks.flatten

/-- The `changed` field of a terminal result record, if the run terminated
through `exit_json`/`fail_json`. -/
def changedOf : Outcome → Option Bool
  | .exit_json c _ => some c
  | .fail_json c _ => some c
  | .uncaught _ => none

/-- Fixture parameters for concrete witnesses: required fields set, the
optional `tag`, `output_path` and `asset_names` absent. -/
def pW : Params :=
  { url := "https://ghe.example", owner := "eub", repo := "magnif", token := "sekret",
    tag := none, output_path := none, asset_names := none }

/-- Fixture transport for the full-success scenario: the metadata URL gets a
release with one asset; every other URL gets a 200 octet stream. -/
def http7 : Request → HttpResult := fun req =>
  if req.url = release_url pW then .ok ⟨200, some ⟨[⟨1, "a.tar.gz"⟩]⟩, []⟩
  else .ok ⟨200, none, [[104, 105]]⟩

/-- Fixture transport for the mid-run download failure: asset 1 succeeds,
asset 2 answers 500. -/
def http2 : Request → HttpResult := fun req =>
  if req.url = release_url pW then
    .ok ⟨200, some ⟨[⟨1, "a.tar.gz"⟩, ⟨2, "b.zip"⟩]⟩, []⟩
  else if req.url = asset_url pW 1 then .ok ⟨200, none, [[1, 2], [3]]⟩
  else .ok ⟨500, none, []⟩

/-- Fixture transport that ignores the authorization header (response depends
on the URL alone), for the token-noninterference witness. -/
def http9 : Request → HttpResult := fun req =>
  if req.url = release_url pW then .ok ⟨200, some ⟨[⟨1, "a.tar.gz"⟩]⟩, []⟩
  else .ok ⟨200, none, [[7]]⟩

/-- Fixture transport where the metadata request succeeds but every asset
request raises `ConnectionError`. -/
def http10 : Request → HttpResult := fun req =>
  if req.url = release_url pW then .ok ⟨200, some ⟨[⟨1, "a.tar.gz"⟩]⟩, []⟩
  else .connError

lemma dictUpdate_of_fresh (d : List (Nat × String)) (k : Nat) (v : String)
    (h : ∀ kv ∈ d, kv.1 ≠ k) : dictUpdate d k v = d ++ [(k, v)] := by
  rw [dictUpdate, if_neg]
  intro hx
  obtain ⟨kv, hkv, hbeq⟩ := List.any_eq_true.mp hx
  exact h kv hkv (by simpa using hbeq)

lemma selectLoop_eq (ns : Option (List String)) (assets : List Asset) :
    ∀ d : List (Nat × String),
    (∀ a ∈ assets, ∀ kv ∈ d, kv.1 ≠ a.id) →
    (assets.map Asset.id).Nodup →
    selectLoop ns assets d =
      d ++ (assets.filter (fun a => !skipAsset ns a.name)).map (fun a => (a.id, a.name)) := by
  induction assets with
  | nil => intro d _ _; simp [selectLoop]
  | cons a rest ih =>
    intro d h hnd
    simp only [List.map_cons, List.nodup_cons] at hnd
    obtain ⟨hnotin, hnd'⟩ := hnd
    rw [selectLoop]
    by_cases hskip : skipAsset ns a.name = true
    · rw [if_pos hskip]
      rw [ih d (fun b hb => h b (List.mem_cons_of_mem _ hb)) hnd']
      simp [List.filter_cons, hskip]
    · have hskip' : skipAsset ns a.name = false := by simpa using hskip
      rw [if_neg hskip]
      have hfresh : ∀ b ∈ rest, ∀ kv ∈ d ++ [(a.id, a.name)], kv.1 ≠ b.id := by
        intro b hb kv hkv
        rcases List.mem_append.mp hkv with hkv | hkv
        · exact h b (List.mem_cons_of_mem _ hb) kv hkv
        · simp only [List.mem_singleton] at hkv
          subst hkv
          intro hcontra
          apply hnotin
          rw [show a.id = b.id from hcontra]
          exact List.mem_map_of_mem Asset.id hb
      rw [dictUpdate_of_fresh d a.id a.name (fun kv hkv => h a (by simp) kv hkv)]
      rw [ih (d ++ [(a.id, a.name)]) hfresh hnd']
      simp [List.filter_cons, hskip']

/-- C1 (amended): for every release asset list whose asset ids are pairwise
distinct (as in a valid release response), the selection with no filter is
exactly the assets of the response, in their original order, and the
selection with a filter is exactly the assets whose name is an exact member
of the filter, in their original order; filter entries matching no asset are
silently ignored. -/
theorem c1_selection_amended (assets : List Asset) (names : List String)
    (hnd : (assets.map Asset.id).Nodup) :
    assets_to_download none assets = assets.map (fun a => (a.id, a.name)) ∧
    assets_to_download (some names) assets =
      (assets.filter (fun a => names.contains a.name)).map (fun a => (a.id, a.name)) := by
  constructor
  · rw [assets_to_download, selectLoop_eq none assets [] (by simp) hnd]
    simp [skipAsset]
  · rw [assets_to_download, selectLoop_eq (some names) assets [] (by simp) hnd]
    simp [skipAsset]

/-- C1 (counterexample): on a release response whose two assets share the id
1, the selection keyed by asset id collapses them to a single entry, so it is
not "exactly the assets present in the release response, in their original
order". -/
theorem c1_counterexample :
    assets_to_download none [⟨1, "a"⟩, ⟨1, "b"⟩] ≠
      ([⟨1, "a"⟩, ⟨1, "b"⟩] : List Asset).map (fun a => (a.id, a.name)) := by
  decide

/-- C1 (witness): the amended claim evaluated on a concrete two-asset release
with the filter `["a.tar.gz", "zzz"]`, whose entry `"zzz"` matches nothing. -/
theorem c1_selection_amended_witness :
    (([⟨1, "a.tar.gz"⟩, ⟨2, "b.zip"⟩] : List Asset).map Asset.id).Nodup ∧
    (assets_to_download none [⟨1, "a.tar.gz"⟩, ⟨2, "b.zip"⟩] =
        ([⟨1, "a.tar.gz"⟩, ⟨2, "b.zip"⟩] : List Asset).map (fun a => (a.id, a.name)) ∧
      assets_to_download (some ["a.tar.gz", "zzz"]) [⟨1, "a.tar.gz"⟩, ⟨2, "b.zip"⟩] =
        (([⟨1, "a.tar.gz"⟩, ⟨2, "b.zip"⟩] : List Asset).filter
            (fun a => (["a.tar.gz", "zzz"] : List String).contains a.name)).map
          (fun a => (a.id, a.name))) :=
  ⟨by decide,
    c1_selection_amended [⟨1, "a.tar.gz"⟩, ⟨2, "b.zip"⟩] ["a.tar.gz", "zzz"] (by decide)⟩

/-- C6: the release-metadata URL is
`{url}/api/v3/repos/{owner}/{repo}/releases/latest` when the tag is absent
and `.../releases/tags/{tag}` when it is present, the per-asset download URL
is `.../releases/assets/{assetId}`, and these are exactly the URLs of the
requests the module issues. -/
theorem c6_request_urls (p : Params) (tag : String) (asset_id : Nat) :
    release_url { p with tag := none } =
      p.url ++ "/api/v3/repos/" ++ p.owner ++ "/" ++ p.repo ++ "/releases/latest" ∧
    release_url { p with tag := some tag } =
      p.url ++ "/api/v3/repos/" ++ p.owner ++ "/" ++ p.repo ++ "/releases/tags/" ++ tag ∧
    asset_url p asset_id =
      p.url ++ "/api/v3/repos/" ++ p.owner ++ "/" ++ p.repo ++ "/releases/assets/" ++
        toString asset_id ∧
    (metadataRequest p).url = release_url p ∧
    (assetRequest p asset_id).url = asset_url p asset_id :=
  ⟨rfl, rfl, rfl, rfl, rfl⟩

lemma downloadLoop_changed (http : Request → HttpResult) (cwd : String) (p : Params) :
    ∀ (l : List (Nat × String)) (w : List FileWrite) (q : List Request),
    changedOf (downloadLoop http cwd p l w q).outcome = some false ∨
      changedOf (downloadLoop http cwd p l w q).outcome = none := by
  intro l
  induction l with
  | nil => intro w q; left; rfl
  | cons x rest ih =>
    intro w q
    cases hh : http (assetRequest p x.1) with
    | connError => right; simp [downloadLoop, hh, changedOf]
    | ok r =>
      by_cases h200 : r.status_code = 200
      · simp only [downloadLoop, hh, h200, ne_eq, not_true_eq_false, if_false]
        exact ih _ _
      · left; simp [downloadLoop, hh, h200, changedOf]

/-- C8: for every transport behavior, working directory and parameters, the
terminal result record of the run carries `changed = false` (or the run dies
on an uncaught exception and produces no record at all); no path through
`run_module` ever reports `changed = true`. -/
theorem c8_changed_always_false (http : Request → HttpResult) (cwd : String) (p : Params) :
    changedOf (run_module http cwd p).outcome = some false ∨
      changedOf (run_module http cwd p).outcome = none := by
  cases hh : http (metadataRequest p) with
  | connError => left; simp [run_module, hh, changedOf]
  | ok r =>
    by_cases h401 : r.status_code = 401
    · left; simp [run_module, hh, h401, changedOf]
    · by_cases h404 : r.status_code = 404
      · left; simp [run_module, hh, h401, h404, changedOf]
      · simp only [run_module, hh, h401, h404, if_false]
        cases hj : r.json with
        | none => right; simp [afterMetadata, hj, changedOf]
        | some jd =>
          by_cases hz : (assets_to_download p.asset_names jd.assets).length = 0
          · left; simp [afterMetadata, hj, hz, changedOf]
          · simp only [afterMetadata, hj, hz, if_false]
            exact downloadLoop_changed http cwd p _ _ _

/-- C3: a transport `ConnectionError` on the release-metadata request ends the
run with `"Failed to connect {url}"` (the metadata URL interpolated), HTTP 401
ends it with `"401 Unauthorized"`, and HTTP 404 ends it with
`"404 Not Found"`; in each case no file is written and the metadata request is
the only request issued (zero downloads, no retry). -/
theorem c3_metadata_failures (http : Request → HttpResult) (cwd : String) (p : Params)
    (r : Response) :
    (http (metadataRequest p) = .connError →
      run_module http cwd p =
        ⟨.fail_json false ("Failed to connect " ++ release_url p), [], [metadataRequest p]⟩) ∧
    (http (metadataRequest p) = .ok r → r.status_code = 401 →
      run_module http cwd p =
        ⟨.fail_json false "401 Unauthorized", [], [metadataRequest p]⟩) ∧
    (http (metadataRequest p) = .ok r → r.status_code = 404 →
      run_module http cwd p =
        ⟨.fail_json false "404 Not Found", [], [metadataRequest p]⟩) := by
  refine ⟨fun h => ?_, fun h h401 => ?_, fun h h404 => ?_⟩
  · rw [run_module, h]
  · simp [run_module, h, h401]
  · simp [run_module, h, h404]

/-- C3 (witness): the three metadata-stage failures evaluated on concrete
transports: one raising `ConnectionError`, one answering 401, one answering
404. -/
theorem c3_metadata_failures_witness :
    run_module (fun _ => .connError) "/w" pW =
      ⟨.fail_json false ("Failed to connect " ++ release_url pW), [], [metadataRequest pW]⟩ ∧
    run_module (fun _ => .ok ⟨401, none, []⟩) "/w" pW =
      ⟨.fail_json false "401 Unauthorized", [], [metadataRequest pW]⟩ ∧
    run_module (fun _ => .ok ⟨404, none, []⟩) "/w" pW =
      ⟨.fail_json false "404 Not Found", [], [metadataRequest pW]⟩ :=
  ⟨(c3_metadata_failures (fun _ => .connError) "/w" pW ⟨200, none, []⟩).1 rfl,
    (c3_metadata_failures (fun _ => .ok ⟨401, none, []⟩) "/w" pW ⟨401, none, []⟩).2.1 rfl rfl,
    (c3_metadata_failures (fun _ => .ok ⟨404, none, []⟩) "/w" pW ⟨404, none, []⟩).2.2 rfl rfl⟩

/-- C5: whenever the (filtered or unfiltered) selection is empty, the run
fails with exactly `"There is no asset to download"`, writes no file, and the
metadata request is the only request issued — the check fires before any
download request. -/
theorem c5_empty_selection (http : Request → HttpResult) (cwd : String) (p : Params)
    (r : Response) (jd : ReleaseJson)
    (hr : http (metadataRequest p) = .ok r)
    (h401 : r.status_code ≠ 401) (h404 : r.status_code ≠ 404)
    (hj : r.json = some jd)
    (hsel : assets_to_download p.asset_names jd.assets = []) :
    run_module http cwd p =
      ⟨.fail_json false "There is no asset to download", [], [metadataRequest p]⟩ := by
  simp only [run_module, hr, h401, h404, if_false, afterMetadata, hj]
  rw [if_pos (by rw [hsel]; rfl)]

/-- C5 (witness): the empty-selection failure evaluated on a concrete
transport whose release has no assets at all. -/
theorem c5_empty_selection_witness :
    run_module (fun _ => .ok ⟨200, some ⟨[]⟩, []⟩) "/w" pW =
      ⟨.fail_json false "There is no asset to download", [], [metadataRequest pW]⟩ :=
  c5_empty_selection (fun _ => .ok ⟨200, some ⟨[]⟩, []⟩) "/w" pW ⟨200, some ⟨[]⟩, []⟩ ⟨[]⟩
    rfl (by decide) (by decide) rfl rfl

lemma downloadLoop_ok_append (http : Request → HttpResult) (cwd : String) (p : Params)
    (l₁ : List (Nat × String)) :
    ∀ (rest : List (Nat × String)) (w : List FileWrite) (q : List Request),
    (∀ x ∈ l₁, ok200 (http (assetRequest p x.1)) = true) →
    downloadLoop http cwd p (l₁ ++ rest) w q =
      downloadLoop http cwd p rest
        (w ++ l₁.map (fun x => ⟨parent_dir cwd p, x.2, bodyChunks (http (assetRequest p x.1))⟩))
        (q ++ l₁.map (fun x => assetRequest p x.1)) := by
  induction l₁ with
  | nil => intro rest w q _; simp
  | cons x l ih =>
    intro rest w q h
    have hx := h x (by simp)
    cases hh : http (assetRequest p x.1) with
    | connError => rw [hh] at hx; simp [ok200] at hx
    | ok r =>
      rw [hh] at hx
      have h200 : r.status_code = 200 := by simpa [ok200] using hx
      simp only [List.cons_append, downloadLoop, hh, h200, ne_eq, not_true_eq_false, if_false,
        List.append_eq]
      rw [ih rest _ _ (fun y hy => h y (List.mem_cons_of_mem _ hy))]
      simp [bodyChunks, hh]

lemma downloadLoop_all_ok (http : Request → HttpResult) (cwd : String) (p : Params)
    (l : List (Nat × String)) (w : List FileWrite) (q : List Request)
    (h : ∀ x ∈ l, ok200 (http (assetRequest p x.1)) = true) :
    downloadLoop http cwd p l w q =
      ⟨.exit_json false ("Completed to download assets on " ++ parent_dir cwd p),
        w ++ l.map (fun x => ⟨parent_dir cwd p, x.2, bodyChunks (http (assetRequest p x.1))⟩),
        q ++ l.map (fun x => assetRequest p x.1)⟩ := by
  have := downloadLoop_ok_append http cwd p l [] w q h
  rw [List.append_nil] at this
  rw [this, downloadLoop]

/-- C2: if the metadata phase succeeded, the selection splits as
`l₁ ++ (aid, aname) :: l₂` where every asset of `l₁` downloads with status
200 and the request for `aid` answers a status other than 200, then the run
fails with exactly `"Failed to download {aname}"`; the request trace stops at
the failed asset (nothing of `l₂` is requested), no file is written for the
failed asset, and the files written for `l₁` before the failure are exactly
the writes the run leaves behind (no rollback or cleanup). -/
theorem c2_download_failure_aborts (http : Request → HttpResult) (cwd : String) (p : Params)
    (r : Response) (jd : ReleaseJson) (l₁ : List (Nat × String)) (aid : Nat) (aname : String)
    (l₂ : List (Nat × String)) (ra : Response)
    (hr : http (metadataRequest p) = .ok r)
    (h401 : r.status_code ≠ 401) (h404 : r.status_code ≠ 404)
    (hj : r.json = some jd)
    (hsel : assets_to_download p.asset_names jd.assets = l₁ ++ (aid, aname) :: l₂)
    (hpre : ∀ x ∈ l₁, ok200 (http (assetRequest p x.1)) = true)
    (hfail : http (assetRequest p aid) = .ok ra)
    (hst : ra.status_code ≠ 200) :
    run_module http cwd p =
      ⟨.fail_json false ("Failed to download " ++ aname),
        l₁.map (fun x => ⟨parent_dir cwd p, x.2, bodyChunks (http (assetRequest p x.1))⟩),
        ([metadataRequest p] ++ l₁.map (fun x => assetRequest p x.1)) ++
          [assetRequest p aid]⟩ := by
  simp only [run_module, hr, h401, h404, if_false, afterMetadata, hj]
  rw [if_neg (by rw [hsel]; simp), hsel]
  rw [downloadLoop_ok_append http cwd p l₁ ((aid, aname) :: l₂) [] [metadataRequest p] hpre]
  simp only [downloadLoop, hfail]
  rw [if_pos hst]
  simp

/-- C2 (witness): a concrete two-asset run where asset 1 downloads with 200
and asset 2 answers 500: the run fails with `"Failed to download b.zip"`,
asset 1's file write is kept, and no request beyond asset 2 is made. -/
theorem c2_download_failure_aborts_witness :
    run_module http2 "/w" pW =
      ⟨.fail_json false ("Failed to download " ++ "b.zip"),
        ([(1, "a.tar.gz")] : List (Nat × String)).map
          (fun x => ⟨parent_dir "/w" pW, x.2, bodyChunks (http2 (assetRequest pW x.1))⟩),
        ([metadataRequest pW] ++
            ([(1, "a.tar.gz")] : List (Nat × String)).map (fun x => assetRequest pW x.1)) ++
          [assetRequest pW 2]⟩ :=
  c2_download_failure_aborts http2 "/w" pW ⟨200, some ⟨[⟨1, "a.tar.gz"⟩, ⟨2, "b.zip"⟩]⟩, []⟩
    ⟨[⟨1, "a.tar.gz"⟩, ⟨2, "b.zip"⟩]⟩ [(1, "a.tar.gz")] 2 "b.zip" [] ⟨500, none, []⟩
    (by decide) (by decide) (by decide) (by decide) (by decide) (by decide) (by decide)
    (by decide)

/-- C7: if the metadata phase succeeded, the selection is nonempty and every
selected asset downloads with status 200, the run exits with
`{changed := false, msg := "Completed to download assets on {parent_dir}"}`
after writing one file per selected asset, where `parent_dir` is the
`output_path` parameter when present and the current working directory
otherwise. -/
theorem c7_success_outcome (http : Request → HttpResult) (cwd : String) (p : Params)
    (r : Response) (jd : ReleaseJson) (l : List (Nat × String))
    (hr : http (metadataRequest p) = .ok r)
    (h401 : r.status_code ≠ 401) (h404 : r.status_code ≠ 404)
    (hj : r.json = some jd)
    (hsel : assets_to_download p.asset_names jd.assets = l)
    (hne : l ≠ [])
    (hall : ∀ x ∈ l, ok200 (http (assetRequest p x.1)) = true) :
    run_module http cwd p =
      ⟨.exit_json false ("Completed to download assets on " ++ parent_dir cwd p),
        l.map (fun x => ⟨parent_dir cwd p, x.2, bodyChunks (http (assetRequest p x.1))⟩),
        [metadataRequest p] ++ l.map (fun x => assetRequest p x.1)⟩ ∧
    (p.output_path = none → parent_dir cwd p = cwd) ∧
    (∀ d, p.output_path = some d → parent_dir cwd p = d) := by
  refine ⟨?_, fun h => by simp [parent_dir, h], fun d h => by simp [parent_dir, h]⟩
  simp only [run_module, hr, h401, h404, if_false, afterMetadata, hj]
  rw [if_neg (by rw [hsel]; simpa using hne), hsel]
  rw [downloadLoop_all_ok http cwd p l [] [metadataRequest p] hall]
  simp

/-- C7 (witness): a concrete run whose single selected asset downloads with
200, checked together with the default resolution of the destination to the
working directory. -/
theorem c7_success_outcome_witness :
    run_module http7 "/w" pW =
      ⟨.exit_json false ("Completed to download assets on " ++ parent_dir "/w" pW),
        ([(1, "a.tar.gz")] : List (Nat × String)).map
          (fun x => ⟨parent_dir "/w" pW, x.2, bodyChunks (http7 (assetRequest pW x.1))⟩),
        [metadataRequest pW] ++
          ([(1, "a.tar.gz")] : List (Nat × String)).map (fun x => assetRequest pW x.1)⟩ ∧
    parent_dir "/w" pW = "/w" :=
  ⟨(c7_success_outcome http7 "/w" pW ⟨200, some ⟨[⟨1, "a.tar.gz"⟩]⟩, []⟩ ⟨[⟨1, "a.tar.gz"⟩]⟩
      [(1, "a.tar.gz")] (by decide) (by decide) (by decide) (by decide) (by decide)
      (by decide) (by decide)).1,
    (c7_success_outcome http7 "/w" pW ⟨200, some ⟨[⟨1, "a.tar.gz"⟩]⟩, []⟩ ⟨[⟨1, "a.tar.gz"⟩]⟩
      [(1, "a.tar.gz")] (by decide) (by decide) (by decide) (by decide) (by decide)
      (by decide) (by decide)).2.1 rfl⟩

lemma downloadLoop_token_indep (http : Request → HttpResult) (cwd : String) (p : Params)
    (t₁ t₂ : String)
    (hfair : ∀ r₁ r₂ : Request, r₁.url = r₂.url → r₁.accept = r₂.accept → r₁.stream = r₂.stream →
      http r₁ = http r₂) :
    ∀ (l : List (Nat × String)) (w : List FileWrite) (q₁ q₂ : List Request),
    (downloadLoop http cwd { p with token := t₁ } l w q₁).outcome =
      (downloadLoop http cwd { p with token := t₂ } l w q₂).outcome ∧
    (downloadLoop http cwd { p with token := t₁ } l w q₁).writes =
      (downloadLoop http cwd { p with token := t₂ } l w q₂).writes := by
  intro l
  induction l with
  | nil => intro w q₁ q₂; exact ⟨rfl, rfl⟩
  | cons x rest ih =>
    intro w q₁ q₂
    have hreq : http (assetRequest { p with token := t₁ } x.1) =
        http (assetRequest { p with token := t₂ } x.1) := hfair _ _ rfl rfl rfl
    cases hh : http (assetRequest { p with token := t₂ } x.1) with
    | connError =>
      have hh1 : http (assetRequest { p with token := t₁ } x.1) = .connError := hreq.trans hh
      exact ⟨by simp only [downloadLoop, hh, hh1]; rfl, by simp only [downloadLoop, hh, hh1]⟩
    | ok r =>
      have hh1 : http (assetRequest { p with token := t₁ } x.1) = .ok r := hreq.trans hh
      by_cases h200 : r.status_code = 200
      · simp only [downloadLoop, hh, hh1, h200, ne_eq, not_true_eq_false, if_false]
        exact ih _ _ _
      · exact ⟨by simp only [downloadLoop, hh, hh1, ne_eq, h200, not_false_eq_true, if_true],
          by simp only [downloadLoop, hh, hh1, ne_eq, h200, not_false_eq_true, if_true]⟩

/-- C9: the token parameter cannot flow into the outcome's message (or into
the written files): two runs that differ only in the token value, against a
transport whose responses depend only on the request's URL, accept header and
stream flag (identical server responses), produce identical outcomes and
identical file writes — every message is built only from the request URL,
fixed status text, the failing asset's name, or the destination directory. -/
theorem c9_token_noninterference (http : Request → HttpResult) (cwd : String) (p : Params)
    (t₁ t₂ : String)
    (hfair : ∀ r₁ r₂ : Request, r₁.url = r₂.url → r₁.accept = r₂.accept → r₁.stream = r₂.stream →
      http r₁ = http r₂) :
    (run_module http cwd { p with token := t₁ }).outcome =
      (run_module http cwd { p with token := t₂ }).outcome ∧
    (run_module http cwd { p with token := t₁ }).writes =
      (run_module http cwd { p with token := t₂ }).writes := by
  have hreq : http (metadataRequest { p with token := t₁ }) =
      http (metadataRequest { p with token := t₂ }) := hfair _ _ rfl rfl rfl
  cases hh : http (metadataRequest { p with token := t₂ }) with
  | connError =>
    have hh1 : http (metadataRequest { p with token := t₁ }) = .connError := hreq.trans hh
    exact ⟨by simp only [run_module, hh, hh1]; rfl, by simp only [run_module, hh, hh1]⟩
  | ok r =>
    have hh1 : http (metadataRequest { p with token := t₁ }) = .ok r := hreq.trans hh
    by_cases h401 : r.status_code = 401
    · exact ⟨by simp only [run_module, hh, hh1, h401, if_true],
        by simp only [run_module, hh, hh1, h401, if_true]⟩
    · by_cases h404 : r.status_code = 404
      · exact ⟨by simp [run_module, hh, hh1, h401, h404],
          by simp [run_module, hh, hh1, h401, h404]⟩
      · simp only [run_module, hh, hh1, h401, h404, if_false]
        cases hj : r.json with
        | none =>
          exact ⟨by simp only [afterMetadata, hj], by simp only [afterMetadata, hj]⟩
        | some jd =>
          simp only [afterMetadata, hj]
          by_cases hz : (assets_to_download p.asset_names jd.assets).length = 0
          · exact ⟨by simp only [hz, if_true], by simp only [hz, if_true]⟩
          · simp only [hz, if_false]
            exact downloadLoop_token_indep http cwd p t₁ t₂ hfair _ _ _ _

/-- C9 (witness): two concrete runs differing only in the token, against a
transport that reads only the request URL, produce the same outcome and the
same file writes. -/
theorem c9_token_noninterference_witness :
    (run_module http9 "/w" { pW with token := "secret-A" }).outcome =
      (run_module http9 "/w" { pW with token := "secret-B" }).outcome ∧
    (run_module http9 "/w" { pW with token := "secret-A" }).writes =
      (run_module http9 "/w" { pW with token := "secret-B" }).writes :=
  c9_token_noninterference http9 "/w" pW "secret-A" "secret-B"
    (fun r₁ r₂ h _ _ => by simp only [http9]; rw [h])

/-- C10 (implicit): a transport `ConnectionError` is caught only around the
release-metadata request; the per-asset request has no such guard, so on a
concrete input whose asset request raises `ConnectionError` the run ends in
an uncaught exception rather than in any `fail_json` message, while the same
failure on the metadata request is mapped to `"Failed to connect {url}"`. -/
theorem c10_asset_conn_error_unguarded :
    (run_module http10 "/w" pW).outcome = .uncaught (.connectionError (asset_url pW 1)) ∧
    (run_module (fun _ => .connError) "/w" pW).outcome =
      .fail_json false ("Failed to connect " ++ release_url pW) := by
  constructor
  · decide
  · decide

lemma strAppendNe (s t u v : String) (i : Nat)
    (h1 : i < s.data.length) (h2 : i < t.data.length)
    (hne : s.data[i]? ≠ t.data[i]?) : s ++ u ≠ t ++ v := by
  intro h
  apply hne
  have hd : s.data ++ u.data = t.data ++ v.data := by
    have h3 := congrArg String.data h
    rwa [String.data_append, String.data_append] at h3
  calc s.data[i]? = (s.data ++ u.data)[i]? := (List.getElem?_append_left h1).symm
    _ = (t.data ++ v.data)[i]? := by rw [hd]
    _ = t.data[i]? := List.getElem?_append_left h2

lemma strLitNeApp (s t u : String) (i : Nat)
    (h1 : i < s.data.length) (h2 : i < t.data.length)
    (hne : s.data[i]? ≠ t.data[i]?) : s ≠ t ++ u := by
  have h := strAppendNe s t "" u i h1 h2 hne
  rwa [String.append_empty] at h

lemma failedDownload_ne_401 (n : String) : "Failed to download " ++ n ≠ "401 Unauthorized" :=
  (strLitNeApp "401 Unauthorized" "Failed to download " n 0 (by decide) (by decide)
    (by decide)).symm

lemma failedDownload_ne_404 (n : String) : "Failed to download " ++ n ≠ "404 Not Found" :=
  (strLitNeApp "404 Not Found" "Failed to download " n 0 (by decide) (by decide)
    (by decide)).symm

lemma failedDownload_ne_connect (n u : String) :
    "Failed to download " ++ n ≠ "Failed to connect " ++ u :=
  strAppendNe "Failed to download " "Failed to connect " n u 10 (by decide) (by decide)
    (by decide)

lemma noasset_ne_connect (u : String) :
    "There is no asset to download" ≠ "Failed to connect " ++ u :=
  strLitNeApp "There is no asset to download" "Failed to connect " u 0 (by decide) (by decide)
    (by decide)

lemma downloadLoop_outcome_cases (http : Request → HttpResult) (cwd : String) (p : Params) :
    ∀ (l : List (Nat × String)) (w : List FileWrite) (q : List Request),
    (∃ n, (downloadLoop http cwd p l w q).outcome = .uncaught (.connectionError n)) ∨
    (∃ n, (downloadLoop http cwd p l w q).outcome =
      .fail_json false ("Failed to download " ++ n)) ∨
    (downloadLoop http cwd p l w q).outcome =
      .exit_json false ("Completed to download assets on " ++ parent_dir cwd p) := by
  intro l
  induction l with
  | nil => intro w q; right; right; rfl
  | cons x rest ih =>
    intro w q
    cases hh : http (assetRequest p x.1) with
    | connError => left; exact ⟨asset_url p x.1, by simp only [downloadLoop, hh]⟩
    | ok r =>
      by_cases h200 : r.status_code = 200
      · simp only [downloadLoop, hh, h200, ne_eq, not_true_eq_false, if_false]
        exact ih _ _
      · right; left
        exact ⟨x.2, by simp only [downloadLoop, hh, ne_eq, h200, not_false_eq_true, if_true]⟩

lemma afterMetadata_outcome_cases (http : Request → HttpResult) (cwd : String) (p : Params)
    (r : Response) :
    (afterMetadata http cwd p r).outcome = .uncaught .jsonError ∨
    (∃ n, (afterMetadata http cwd p r).outcome = .uncaught (.connectionError n)) ∨
    (afterMetadata http cwd p r).outcome = .fail_json false "There is no asset to download" ∨
    (∃ n, (afterMetadata http cwd p r).outcome =
      .fail_json false ("Failed to download " ++ n)) ∨
    (afterMetadata http cwd p r).outcome =
      .exit_json false ("Completed to download assets on " ++ parent_dir cwd p) := by
  cases hj : r.json with
  | none => left; simp only [afterMetadata, hj]
  | some jd =>
    by_cases hz : (assets_to_download p.asset_names jd.assets).length = 0
    · right; right; left; simp only [afterMetadata, hj, hz, if_true]
    · have h := downloadLoop_outcome_cases http cwd p
        (assets_to_download p.asset_names jd.assets) [] [metadataRequest p]
      simp only [afterMetadata, hj, hz, if_false]
      tauto

/-- C4: whenever the metadata response has a status other than 401 and 404
(including 500 or 403), the run proceeds to `afterMetadata` — the body is
parsed as structured data regardless of the status code (a body that fails to
parse surfaces as the uncaught parse exception) — and none of the three
metadata-stage failure messages (`"401 Unauthorized"`, `"404 Not Found"`,
`"Failed to connect {url}"`) is produced. -/
theorem c4_other_status_parsed (http : Request → HttpResult) (cwd : String) (p : Params)
    (r : Response)
    (hr : http (metadataRequest p) = .ok r)
    (h401 : r.status_code ≠ 401) (h404 : r.status_code ≠ 404) :
    run_module http cwd p = afterMetadata http cwd p r ∧
    (r.json = none → (run_module http cwd p).outcome = .uncaught .jsonError) ∧
    (∀ c, (run_module http cwd p).outcome ≠ .fail_json c "401 Unauthorized") ∧
    (∀ c, (run_module http cwd p).outcome ≠ .fail_json c "404 Not Found") ∧
    (∀ c, (run_module http cwd p).outcome ≠
      .fail_json c ("Failed to connect " ++ release_url p)) := by
  have hrm : run_module http cwd p = afterMetadata http cwd p r := by
    simp only [run_module, hr, h401, h404, if_false]
  refine ⟨hrm, ?_, ?_, ?_, ?_⟩
  · intro hj; rw [hrm]; simp only [afterMetadata, hj]
  · intro c heq
    rw [hrm] at heq
    rcases afterMetadata_outcome_cases http cwd p r with h | ⟨n, h⟩ | h | ⟨n, h⟩ | h
    · rw [h] at heq; exact Outcome.noConfusion heq
    · rw [h] at heq; exact Outcome.noConfusion heq
    · rw [h] at heq
      injection heq with hc hm
      exact absurd hm (by decide)
    · rw [h] at heq
      injection heq with hc hm
      exact failedDownload_ne_401 n hm
    · rw [h] at heq; exact Outcome.noConfusion heq
  · intro c heq
    rw [hrm] at heq
    rcases afterMetadata_outcome_cases http cwd p r with h | ⟨n, h⟩ | h | ⟨n, h⟩ | h
    · rw [h] at heq; exact Outcome.noConfusion heq
    · rw [h] at heq; exact Outcome.noConfusion heq
    · rw [h] at heq
      injection heq with hc hm
      exact absurd hm (by decide)
    · rw [h] at heq
      injection heq with hc hm
      exact failedDownload_ne_404 n hm
    · rw [h] at heq; exact Outcome.noConfusion heq
  · intro c heq
    rw [hrm] at heq
    rcases afterMetadata_outcome_cases http cwd p r with h | ⟨n, h⟩ | h | ⟨n, h⟩ | h
    · rw [h] at heq; exact Outcome.noConfusion heq
    · rw [h] at heq; exact Outcome.noConfusion heq
    · rw [h] at heq
      injection heq with hc hm
      exact noasset_ne_connect (release_url p) hm
    · rw [h] at heq
      injection heq with hc hm
      exact failedDownload_ne_connect n (release_url p) hm
    · rw [h] at heq
      exact Outcome.noConfusion heq

/-- C4 (witness): a concrete 500-status metadata response is not mapped to
any of the metadata-stage failure messages; the run goes on to parse the
body, whose parse failure surfaces as the uncaught parse exception. -/
theorem c4_other_status_parsed_witness :
    run_module (fun _ => .ok ⟨500, none, []⟩) "/w" pW =
      afterMetadata (fun _ => .ok ⟨500, none, []⟩) "/w" pW ⟨500, none, []⟩ ∧
    (run_module (fun _ => .ok ⟨500, none, []⟩) "/w" pW).outcome = .uncaught .jsonError :=
  ⟨(c4_other_status_parsed (fun _ => .ok ⟨500, none, []⟩) "/w" pW ⟨500, none, []⟩ rfl
      (by decide) (by decide)).1,
    (c4_other_status_parsed (fun _ => .ok ⟨500, none, []⟩) "/w" pW ⟨500, none, []⟩ rfl
      (by decide) (by decide)).2.1 rfl⟩
